import Mathlib

set_option maxRecDepth 100000
set_option maxHeartbeats 2000000

/-!
Verification of the network-config-auditor engine (`src/app.py`).

The configuration text is modelled as a `List Char`; each of the pattern
searches performed by `audit_config` with Python's `re` module is embedded
as an executable scanner over that list, faithful to the flags the source
passes (`IGNORECASE`, `MULTILINE`, `DOTALL`) for the ASCII range that
device configurations use.
-/

namespace NetAudit

/-- Python `\s` (whitespace class) restricted to the ASCII range. -/
def pyWhite (c : Char) : Bool :=
  c = ' ' || c = '\t' || c = '\n' || c = '\r' || c = '\x0b' || c = '\x0c'

/-- Python `\w` (word character) restricted to the ASCII range; used for `\b`. -/
def isWordChar (c : Char) : Bool := c.isAlphanum || c = '_'

/-- Case-insensitive literal match at the head of the input (the literal is
given in lowercase, as in every pattern of the source); returns the rest of
the input on success. -/
def stripCI : List Char → List Char → Option (List Char)
  | [], s => some s
  | _ :: _, [] => none
  | p :: ps, c :: cs => if c.toLower = p then stripCI ps cs else none

/-- Case-sensitive literal match at the head of the input. -/
def stripCS : List Char → List Char → Option (List Char)
  | [], s => some s
  | _ :: _, [] => none
  | p :: ps, c :: cs => if c = p then stripCS ps cs else none

/-- `\b` to the left of a literal: start of text or a non-word character. -/
def boundaryOK : Option Char → Bool
  | none => true
  | some c => !isWordChar c

/-- `\b` to the right of a literal: end of text or a non-word character. -/
def afterOK : List Char → Bool
  | [] => true
  | c :: _ => !isWordChar c

/-- `re.search(r"\bLIT\b", ..., re.IGNORECASE)` for a literal `LIT`. -/
def searchWBAux (pat : List Char) (prev : Option Char) : List Char → Bool
  | [] => false
  | c :: cs =>
    (boundaryOK prev &&
      (match stripCI pat (c :: cs) with
       | some rest => afterOK rest
       | none => false)) || searchWBAux pat (some c) cs

def searchWB (pat : String) (s : List Char) : Bool := searchWBAux pat.toList none s

/-- `\b(A|B|...)\b` — each alternative is a word-bounded literal. -/
def searchWBAlts (pats : List String) (s : List Char) : Bool :=
  pats.any (fun p => searchWB p s)

/-- Drop one-or-more whitespace characters (`\s+`); `none` when the head is
not whitespace. -/
def dropWhites1 : List Char → Option (List Char)
  | [] => none
  | c :: cs => if pyWhite c then some (cs.dropWhile pyWhite) else none

/-- Drop one-or-more non-whitespace characters (`\S+`); `none` when the head
is whitespace or the input is empty. -/
def dropNonwhites1 : List Char → Option (List Char)
  | [] => none
  | c :: cs => if pyWhite c then none else some (cs.dropWhile (fun d => !pyWhite d))

/-- `re.search(r"\bLIT1\s+(A|B|...)\b", ..., re.IGNORECASE)`. -/
def searchLitWsAltsAux (lit : List Char) (alts : List (List Char)) (prev : Option Char) :
    List Char → Bool
  | [] => false
  | c :: cs =>
    (boundaryOK prev &&
      (match stripCI lit (c :: cs) with
       | some r1 =>
         match dropWhites1 r1 with
         | some r2 =>
           alts.any (fun a =>
             match stripCI a r2 with
             | some r3 => afterOK r3
             | none => false)
         | none => false
       | none => false)) || searchLitWsAltsAux lit alts (some c) cs

def searchLitWsAlts (lit : String) (alts : List String) (s : List Char) : Bool :=
  searchLitWsAltsAux lit.toList (alts.map String.toList) none s

/-- `re.search(r"\bLIT\s+\S+", ..., re.IGNORECASE)` (no trailing `\b`). -/
def searchLitWsNonwhiteAux (lit : List Char) (prev : Option Char) : List Char → Bool
  | [] => false
  | c :: cs =>
    (boundaryOK prev &&
      (match stripCI lit (c :: cs) with
       | some r1 =>
         match dropWhites1 r1 with
         | some r2 => !r2.isEmpty && !pyWhite (r2.headD ' ')
         | none => false
       | none => false)) || searchLitWsNonwhiteAux lit (some c) cs

def searchLitWsNonwhite (lit : String) (s : List Char) : Bool :=
  searchLitWsNonwhiteAux lit.toList none s

/-- Run `test` at every position reachable by `(?m)^\s*` — i.e. at every
position whose line, up to that position, consists only of whitespace.
The flag records whether every character since the last newline was
whitespace. -/
def searchSoftAux (test : List Char → Bool) (lineWhite : Bool) : List Char → Bool
  | [] => false
  | c :: cs =>
    (lineWhite && test (c :: cs)) ||
      searchSoftAux test (if c = '\n' then true else lineWhite && pyWhite c) cs

def searchSoft (test : List Char → Bool) (s : List Char) : Bool :=
  searchSoftAux test true s

/-- Run `test` at every hard line start (`(?m)^` with no `\s*`). -/
def searchHardAux (test : List Char → Bool) (atLS : Bool) : List Char → Bool
  | [] => false
  | c :: cs => (atLS && test (c :: cs)) || searchHardAux test (c = '\n') cs

def searchHard (test : List Char → Bool) (s : List Char) : Bool :=
  searchHardAux test true s

/-- Run `test` at every position (an unanchored `re.search`). -/
def searchAnyAux (test : List Char → Bool) : List Char → Bool
  | [] => false
  | c :: cs => test (c :: cs) || searchAnyAux test cs

/-- Case-insensitive substring containment. -/
def containsCI (pat : String) (s : List Char) : Bool :=
  searchAnyAux (fun r => (stripCI pat.toList r).isSome) s

/-- Case-sensitive substring containment. -/
def containsCS (pat : String) (s : List Char) : Bool :=
  searchAnyAux (fun r => (stripCS pat.toList r).isSome) s

/-! ### The interface-block heuristic

`re.findall(r'(?ms)^(interface\s+\S+.*?)(?=^interface\s+\S+|\Z)', content,
re.IGNORECASE)`: a block starts at a line start matching `interface\s+\S+`
and extends (lazily) to just before the next line start matching that head,
or to the end of the text. -/

/-- Split off the head `interface\s+\S+` (case-insensitive), returning the
matched characters (as they appear in the text) and the rest. -/
def headSplit (s : List Char) : Option (List Char × List Char) :=
  match stripCI "interface".toList s with
  | none => none
  | some r1 =>
    let w := r1.takeWhile pyWhite
    let r2 := r1.dropWhile pyWhite
    if w.isEmpty then none
    else
      let nw := r2.takeWhile (fun c => !pyWhite c)
      let r3 := r2.dropWhile (fun c => !pyWhite c)
      if nw.isEmpty then none else some (s.take 9 ++ w ++ nw, r3)

def headMatch (s : List Char) : Bool := (headSplit s).isSome

/-- Collect the lazy tail of a block: stop just after a newline whose
following position starts a new `interface\s+\S+` line (the regex's
zero-width lookahead), or at the end of the text. -/
def collectBlock : List Char → List Char × List Char
  | [] => ([], [])
  | c :: cs =>
    if c = '\n' && headMatch cs then ([c], cs)
    else
      let p := collectBlock cs
      (c :: p.1, p.2)

/-- Scan for blocks; `atLS` tracks whether the current position is a hard
line start, `fuel` bounds the recursion (the text length suffices, since a
recognised block consumes at least its head). -/
def findBlocksAux : Nat → Bool → List Char → List (List Char)
  | 0, _, _ => []
  | _ + 1, _, [] => []
  | fuel + 1, atLS, c :: cs =>
    if atLS then
      match headSplit (c :: cs) with
      | some (h, r) =>
        let p := collectBlock r
        (h ++ p.1) :: findBlocksAux fuel true p.2
      | none => findBlocksAux fuel (c = '\n') cs
    else findBlocksAux fuel (c = '\n') cs

def ifaceBlocks (s : List Char) : List (List Char) :=
  findBlocksAux (s.length + 1) true s

/-- `re.search(r'(?m)^\s*shutdown\b', block)` — note: case-sensitive. -/
def blockHasShutdown (b : List Char) : Bool :=
  searchSoft (fun r =>
    match stripCS "shutdown".toList r with
    | some rest => afterOK rest
    | none => false) b

/-! ### The 22 rule patterns of `audit_config` -/

def mDhcpSnoop (s : List Char) : Bool := searchWB "ip dhcp snooping" s

def mArpInspect (s : List Char) : Bool := searchWB "ip arp inspection" s

def mPortSec (s : List Char) : Bool := searchWB "switchport port-security" s

/-- The heuristic fires when some interface block lacks a shutdown line
(the source breaks out of its loop after the first such block). -/
def mUnshutBlock (s : List Char) : Bool :=
  (ifaceBlocks s).any (fun b => !blockHasShutdown b)

def mNativeVlan1 (s : List Char) : Bool :=
  searchLitWsAlts "switchport trunk native vlan" ["1"] s

/-- First alternative: `(?mi)^\s*transport input .*telnet` (the `.*` stays
within the line). -/
def telnetLineTest (r : List Char) : Bool :=
  match stripCI "transport input ".toList r with
  | some rest => containsCI "telnet" (rest.takeWhile (fun c => c ≠ '\n'))
  | none => false

/-- Second alternative: `(?ms)^line vty.*?transport input .*telnet`
(case-sensitive, `.` crosses newlines). -/
def lineVtyTest (r : List Char) : Bool :=
  match stripCS "line vty".toList r with
  | some rest =>
    searchAnyAux (fun r2 =>
      match stripCS "transport input ".toList r2 with
      | some r3 => containsCS "telnet" r3
      | none => false) rest
  | none => false

def mTelnet (s : List Char) : Bool :=
  searchSoft telnetLineTest s || searchHard lineVtyTest s

def mSnmpCommunity (s : List Char) : Bool :=
  searchLitWsAlts "snmp-server community" ["public", "private"] s

def mAcl (s : List Char) : Bool :=
  searchWBAlts ["access-list", "ip access-list", "ip prefix-list", "ipv6 access-list"] s

def mAaaNewModel (s : List Char) : Bool := searchWB "aaa new-model" s

/-- `(?mi)^\s*username\s+\S+\s+(?:password|privilege)\b`. -/
def usernameTest (r : List Char) : Bool :=
  match stripCI "username".toList r with
  | some r1 =>
    match dropWhites1 r1 with
    | some r2 =>
      match dropNonwhites1 r2 with
      | some r3 =>
        match dropWhites1 r3 with
        | some r4 =>
          (match stripCI "password".toList r4 with
           | some r5 => afterOK r5
           | none => false) ||
          (match stripCI "privilege".toList r4 with
           | some r5 => afterOK r5
           | none => false)
        | none => false
      | none => false
    | none => false
  | none => false

def mLocalUser (s : List Char) : Bool := searchSoft usernameTest s

def mLogging (s : List Char) : Bool := searchLitWsNonwhite "logging" s

def mNtpClock (s : List Char) : Bool :=
  searchWBAlts ["ntp server", "clock set", "ntp peer"] s

/-- `snmp-server group .* v3` (unanchored, `.` stays within the line). -/
def mSnmpV3 (s : List Char) : Bool :=
  searchAnyAux (fun r =>
    match stripCI "snmp-server group ".toList r with
    | some rest => containsCI " v3" (rest.takeWhile (fun c => c ≠ '\n'))
    | none => false) s

/-- `(?mi)^\s*(service ftp|ftp server|ip ftp)\b`. -/
def ftpTest (r : List Char) : Bool :=
  ["service ftp", "ftp server", "ip ftp"].any (fun p =>
    match stripCI p.toList r with
    | some rest => afterOK rest
    | none => false)

def mFtp (s : List Char) : Bool := searchSoft ftpTest s

/-- `(?mi)^\s*ip http\b`. -/
def httpTest (r : List Char) : Bool :=
  match stripCI "ip http".toList r with
  | some rest => afterOK rest
  | none => false

def mHttp (s : List Char) : Bool := searchSoft httpTest s

def mSsh (s : List Char) : Bool := searchWB "ip ssh" s

def mFhrp (s : List Char) : Bool := searchWBAlts ["standby", "vrrp", "hsrp"] s

def mStorm (s : List Char) : Bool := searchWB "storm-control" s

def mStp (s : List Char) : Bool := searchWB "spanning-tree" s

def mType7 (s : List Char) : Bool := searchWB "password 7" s

def mArchive (s : List Char) : Bool := searchWB "archive" s

def mSvcPwdEnc (s : List Char) : Bool := searchWB "service password-encryption" s

/-! ### Findings and the evaluator -/

/-- One audit finding: the tuple
`(Finding, File, RiskDesc, Recommendation, Category)` of the source. -/
structure Finding where
  finding : String
  file : String
  riskDesc : String
  recommendation : String
  category : String
deriving DecidableEq, Repr

def fDhcp (n : String) : Finding :=
  ⟨"DHCP Snooping Disabled", n, "DHCP attacks possible", "Enable DHCP Snooping", "Layer 2"⟩

def fArp (n : String) : Finding :=
  ⟨"Dynamic ARP Inspection Missing", n, "ARP spoofing possible",
    "Enable Dynamic ARP Inspection", "Layer 2"⟩

def fPortSec (n : String) : Finding :=
  ⟨"Port Security Not Configured", n, "MAC flooding risk", "Enable Port Security", "Layer 2"⟩

def fUnshut (n : String) : Finding :=
  ⟨"Unused Interfaces Active (heuristic)", n,
    "Potential unused interfaces not administratively shutdown",
    "Review & administratively shutdown unused interfaces", "Layer 2"⟩

def fVlan (n : String) : Finding :=
  ⟨"Default Native VLAN in Use", n, "VLAN hopping risk", "Change native VLAN from 1", "Layer 2"⟩

def fTelnet (n : String) : Finding :=
  ⟨"Telnet Enabled", n, "Credentials exposed in cleartext",
    "Disable Telnet and use SSH only", "Access Control"⟩

def fSnmpComm (n : String) : Finding :=
  ⟨"Default SNMP Community", n, "Unauthorized SNMP access risk",
    "Use SNMPv3 with strong credentials", "Access Control"⟩

def fAcl (n : String) : Finding :=
  ⟨"No ACLs Found", n, "Unrestricted traffic flows", "Implement ACLs where needed",
    "Access Control"⟩

def fAaa (n : String) : Finding :=
  ⟨"No AAA Configured", n, "No centralized authentication", "Enable AAA (TACACS+/RADIUS)", "AAA"⟩

def fLocalUser (n : String) : Finding :=
  ⟨"Local User Accounts with Passwords", n, "Local credential management; possible weak auth",
    "Use AAA and avoid plaintext local passwords", "AAA"⟩

def fLogging (n : String) : Finding :=
  ⟨"No Syslog Configured", n, "No centralized log collection", "Configure Syslog servers",
    "Logging"⟩

def fNtp (n : String) : Finding :=
  ⟨"No NTP Configured", n, "Logs not time-synced", "Configure NTP servers", "Logging"⟩

def fSnmpV3 (n : String) : Finding :=
  ⟨"SNMPv3 Not Configured", n, "Monitoring unencrypted",
    "Use SNMPv3 with authentication & privacy", "Logging"⟩

def fFtp (n : String) : Finding :=
  ⟨"FTP Enabled", n, "Credentials exposed in cleartext", "Disable FTP; use SFTP/SCP/FTPS",
    "Crypto"⟩

def fHttp (n : String) : Finding :=
  ⟨"HTTP Server Enabled", n, "Management traffic unencrypted",
    "Disable HTTP; enable HTTPS (ip http secure-server)", "Crypto"⟩

def fSsh (n : String) : Finding :=
  ⟨"SSH Not Configured", n, "Secure remote management not enforced",
    "Enable SSH v2 and restrict vty to SSH", "Crypto"⟩

def fFhrp (n : String) : Finding :=
  ⟨"No First-Hop Redundancy (HSRP/VRRP)", n, "Single point of failure for gateway",
    "Implement HSRP/VRRP where required", "Resilience"⟩

def fStorm (n : String) : Finding :=
  ⟨"No Storm Control", n, "Broadcast/multicast flood risk",
    "Enable storm-control on access ports", "Resilience"⟩

def fStp (n : String) : Finding :=
  ⟨"Spanning Tree Not Configured", n, "Switching loops possible",
    "Enable STP and configure root guard/portfast", "Resilience"⟩

def fType7 (n : String) : Finding :=
  ⟨"Weak Password Encryption (Type 7)", n, "Easily reversible encryption",
    "Avoid type 7; use enable secret / stronger hashes", "Config Mgmt"⟩

def fArchive (n : String) : Finding :=
  ⟨"No Config Archiving", n, "No config backup/versioning",
    "Enable config archive/backup/versioning", "Config Mgmt"⟩

def fSvcEnc (n : String) : Finding :=
  ⟨"Passwords Not Encrypted", n, "Plaintext passwords in config",
    "Enable 'service password-encryption' and use secrets", "Config Mgmt"⟩

/-- The evaluator `audit_config(filename, content)`: the 22 checks of the
source, in source order (the heuristic's loop appends at most once and
breaks, i.e. it fires iff some interface block lacks a shutdown line). -/
def audit_config (filename : String) (content : List Char) : List Finding :=
  (if !mDhcpSnoop content then [fDhcp filename] else []) ++
  (if !mArpInspect content then [fArp filename] else []) ++
  (if !mPortSec content then [fPortSec filename] else []) ++
  (if mUnshutBlock content then [fUnshut filename] else []) ++
  (if mNativeVlan1 content then [fVlan filename] else []) ++
  (if mTelnet content then [fTelnet filename] else []) ++
  (if mSnmpCommunity content then [fSnmpComm filename] else []) ++
  (if !mAcl content then [fAcl filename] else []) ++
  (if !mAaaNewModel content then [fAaa filename] else []) ++
  (if mLocalUser content then [fLocalUser filename] else []) ++
  (if !mLogging content then [fLogging filename] else []) ++
  (if !mNtpClock content then [fNtp filename] else []) ++
  (if !mSnmpV3 content then [fSnmpV3 filename] else []) ++
  (if mFtp content then [fFtp filename] else []) ++
  (if mHttp content then [fHttp filename] else []) ++
  (if !mSsh content then [fSsh filename] else []) ++
  (if !mFhrp content then [fFhrp filename] else []) ++
  (if !mStorm content then [fStorm filename] else []) ++
  (if !mStp content then [fStp filename] else []) ++
  (if mType7 content then [fType7 filename] else []) ++
  (if !mArchive content then [fArchive filename] else []) ++
  (if !mSvcPwdEnc content then [fSvcEnc filename] else [])

/-- `get_risk_score(num_findings)`. -/
def get_risk_score (num_findings : Nat) : String :=
  if num_findings = 0 then "No Risk"
  else if num_findings ≤ 2 then "Low"
  else if num_findings ≤ 5 then "Medium"
  else "High"

/-! ### Aggregation (`main`)

A batch is the ordered sequence of `(device_name, text)` pairs handed to
`process_file_bytes`; the loop in `main` appends every finding of every
entry to `results` (the flat ordered list) and to
`device_summary[finding.file]` (a `defaultdict(list)`, so entries with the
same name concatenate). -/

/-- One decoded audit batch. -/
abbrev Batch := List (String × List Char)

/-- The flat `results` list: findings in batch-processing order, catalog
order within a device. -/
def flatFindings : Batch → List Finding
  | [] => []
  | p :: rest => audit_config p.1 p.2 ++ flatFindings rest

/-- `device_summary[d]`: the findings accumulated under device name `d`. -/
def devFindings (b : Batch) (d : String) : List Finding :=
  (flatFindings b).filter (fun f => f.file = d)

/-- `len(device_summary[d])` — the device's findings count. -/
def devCount (b : Batch) (d : String) : Nat := (devFindings b d).length

/-- The device's risk score, `get_risk_score(len(items))`. -/
def devScore (b : Batch) (d : String) : String := get_risk_score (devCount b d)

/-- `df['Category'].value_counts()[c]` — the per-category total. -/
def catCount (b : Batch) (c : String) : Nat :=
  ((flatFindings b).filter (fun f => f.category = c)).length

/-! ### CSV export

`df.to_csv(index=False)` over
`pd.DataFrame(results, columns=["Finding","File","RiskDesc","Recommendation","Category"])`:
a header row followed by one row per finding, in flat order.  Rows are
modelled at field level (lists of strings); the textual escaping performed
by pandas is outside the claims. -/

def csvHeader : List String := ["Finding", "File", "RiskDesc", "Recommendation", "Category"]

/-- The CSV row of one finding. -/
def rowOf (f : Finding) : List String :=
  [f.finding, f.file, f.riskDesc, f.recommendation, f.category]

/-- The detailed-findings CSV export of a batch. -/
def csvRows (b : Batch) : List (List String) :=
  csvHeader :: (flatFindings b).map rowOf

/-! ### Category ordering of the report charts

The heatmap fixes
`categories_order = ["Layer 2", "Access Control", "AAA", "Logging", "Crypto", "Resilience", "Config Mgmt"]`,
but the PDF chart uses `list(category_counts.keys())` where
`category_counts = df['Category'].value_counts().to_dict()` — i.e. the
categories present, in descending order of count (ties in the order pandas
leaves them; modelled here with a stable sort over first-occurrence
order). -/

def categoriesOrder : List String :=
  ["Layer 2", "Access Control", "AAA", "Logging", "Crypto", "Resilience", "Config Mgmt"]

/-- Deduplicate, keeping the first occurrence of each element. -/
def firstOccurAux (seen : List String) : List String → List String
  | [] => []
  | c :: cs =>
    if seen.contains c then firstOccurAux seen cs
    else c :: firstOccurAux (c :: seen) cs

def firstOccur (l : List String) : List String := firstOccurAux [] l

/-- The `(category, count)` pairs of `value_counts`, in first-occurrence
order before sorting. -/
def catCounts (l : List Finding) : List (String × Nat) :=
  (firstOccur (l.map (fun f => f.category))).map
    (fun c => (c, (l.filter (fun f => f.category = c)).length))

/-- Descending-by-count ordering used by `value_counts`. -/
def countGE (a b : String × Nat) : Prop := b.2 ≤ a.2

instance : DecidableRel countGE := fun a b => Nat.decLe b.2 a.2

/-- `value_counts().to_dict()` insertion order: pairs sorted by count,
descending. -/
def sortedCatCounts (l : List Finding) : List (String × Nat) :=
  List.insertionSort countGE (catCounts l)

/-- `list(category_counts.keys())` as consumed by the PDF chart
(`generate_pdf_report`, findings-by-category section). -/
def pdfCategoryOrder (b : Batch) : List String :=
  (sortedCatCounts (flatFindings b)).map (fun p => p.1)

/-! ### Decoding (`process_file_bytes`)

```
try:
    content = raw_bytes.decode("utf-8", errors="ignore")
except Exception:
    content = raw_bytes.decode("latin-1", errors="ignore")
```
`bytes.decode("utf-8", errors="ignore")` drops every maximal invalid
subpart and never raises, so the `except` branch (Latin-1) cannot run. -/

/-- UTF-8 decoding with `errors="ignore"`: standard UTF-8, dropping each
invalid start byte, and dropping the valid prefix of a sequence whose
continuation is invalid or missing. `fuel` bounds the recursion. -/
def utf8DecodeIgnoreAux : Nat → List Nat → List Char
  | 0, _ => []
  | _ + 1, [] => []
  | fuel + 1, b :: bs =>
    if b < 128 then Char.ofNat b :: utf8DecodeIgnoreAux fuel bs
    else if 194 ≤ b && b ≤ 223 then
      match bs with
      | b2 :: bs2 =>
        if 128 ≤ b2 && b2 ≤ 191 then
          Char.ofNat ((b - 192) * 64 + (b2 - 128)) :: utf8DecodeIgnoreAux fuel bs2
        else utf8DecodeIgnoreAux fuel bs
      | [] => []
    else if 224 ≤ b && b ≤ 239 then
      match bs with
      | b2 :: bs2 =>
        let lo2 := if b = 224 then 160 else 128
        let hi2 := if b = 237 then 159 else 191
        if lo2 ≤ b2 && b2 ≤ hi2 then
          match bs2 with
          | b3 :: bs3 =>
            if 128 ≤ b3 && b3 ≤ 191 then
              Char.ofNat ((b - 224) * 4096 + (b2 - 128) * 64 + (b3 - 128)) ::
                utf8DecodeIgnoreAux fuel bs3
            else utf8DecodeIgnoreAux fuel bs2
          | [] => []
        else utf8DecodeIgnoreAux fuel bs
      | [] => []
    else if 240 ≤ b && b ≤ 244 then
      match bs with
      | b2 :: bs2 =>
        let lo2 := if b = 240 then 144 else 128
        let hi2 := if b = 244 then 143 else 191
        if lo2 ≤ b2 && b2 ≤ hi2 then
          match bs2 with
          | b3 :: bs3 =>
            if 128 ≤ b3 && b3 ≤ 191 then
              match bs3 with
              | b4 :: bs4 =>
                if 128 ≤ b4 && b4 ≤ 191 then
                  Char.ofNat ((b - 240) * 262144 + (b2 - 128) * 4096 +
                      (b3 - 128) * 64 + (b4 - 128)) :: utf8DecodeIgnoreAux fuel bs4
                else utf8DecodeIgnoreAux fuel bs3
              | [] => []
            else utf8DecodeIgnoreAux fuel bs2
          | [] => []
        else utf8DecodeIgnoreAux fuel bs
      | [] => []
    else utf8DecodeIgnoreAux fuel bs

def utf8DecodeIgnore (raw : List Nat) : List Char :=
  utf8DecodeIgnoreAux (raw.length + 1) raw

/-- `raw_bytes.decode("latin-1")`: each byte maps to the code point of the
same value.  This is the `except` branch of `process_file_bytes`. -/
def latin1Decode (raw : List Nat) : List Char := raw.map Char.ofNat

/-- `decode("utf-8", errors="ignore")` as the `try` branch sees it: the
`ignore` handler suppresses every decoding error, so the result is always
`Except.ok`. -/
def utf8TryDecode (raw : List Nat) : Except Unit (List Char) :=
  Except.ok (utf8DecodeIgnore raw)

/-- `process_file_bytes(fname, raw_bytes)` minus its appending side effects:
the findings the entry contributes to the batch. -/
def process_file_bytes (fname : String) (raw : List Nat) : List Finding :=
  let content :=
    match utf8TryDecode raw with
    | Except.ok c => c
    | Except.error _ => latin1Decode raw
  audit_config fname content

/-- The main loop over all uploaded entries (raw bytes): every entry is
processed; none is skipped. -/
def processBatchBytes : List (String × List Nat) → List Finding
  | [] => []
  | e :: rest => process_file_bytes e.1 e.2 ++ processBatchBytes rest

/-! ### Rule polarity -/

/-- The titles of the 15 absence-type rules (absence of a mitigating
pattern ⇒ finding), in catalog order. -/
def absenceTitles : List String :=
  ["DHCP Snooping Disabled", "Dynamic ARP Inspection Missing", "Port Security Not Configured",
   "Unused Interfaces Active (heuristic)", "No ACLs Found", "No AAA Configured",
   "No Syslog Configured", "No NTP Configured", "SNMPv3 Not Configured", "SSH Not Configured",
   "No First-Hop Redundancy (HSRP/VRRP)", "No Storm Control", "Spanning Tree Not Configured",
   "No Config Archiving", "Passwords Not Encrypted"]

/-- The titles of the 7 presence-type rules (presence of a risky
pattern ⇒ finding), in catalog order. -/
def presenceTitles : List String :=
  ["Default Native VLAN in Use", "Telnet Enabled", "Default SNMP Community",
   "Local User Accounts with Passwords", "FTP Enabled", "HTTP Server Enabled",
   "Weak Password Encryption (Type 7)"]

/-- All 22 rule titles, absence rules first. -/
def allTitles : List String := absenceTitles ++ presenceTitles

/-! ### Concrete inputs used by counterexamples and witnesses -/

/-- A configuration containing every risky directive and no mitigating one:
all 22 rules fire. -/
def allFireText : String :=
  "interface Gig0/1\nswitchport trunk native vlan 1\ntransport input telnet\nsnmp-server community public\nusername admin password 7 x\nservice ftp\nip http\npassword 7 y\n"

/-- Two interface blocks: the first administratively shut down, the second
not. -/
def twoBlockText : String :=
  "interface Gig0/1\n shutdown\ninterface Gig0/2\n description up\n"

/-- A malformed configuration: an unterminated interface block. -/
def malformedText : String := "interface Gig0/1\n ip http"

/-- Device text for the chart-order counterexample: category counts
Crypto 3, Resilience 3, Config Mgmt 3, Logging 3, AAA 1, Access Control 1. -/
def d1Text : String :=
  "ip dhcp snooping\nip arp inspection\nswitchport port-security\nservice ftp\nip http\npassword 7 x\n"

/-- Second device text for the chart-order counterexample: category counts
Config Mgmt 3, Crypto 2, Resilience 1, AAA 1. -/
def d2Text : String :=
  "ip dhcp snooping\nip arp inspection\nswitchport port-security\naccess-list 1\nlogging host 1.2.3.4\nntp server 1.2.3.4\nsnmp-server group G v3\nservice ftp\npassword 7 x\nstorm-control\nspanning-tree\n"

/-- The two-device batch whose per-category totals are pairwise distinct
(Config Mgmt 6, Crypto 5, Resilience 4, Logging 3, AAA 2, Access Control 1,
Layer 2 0). -/
def c8Batch : Batch := [("r1.txt", d1Text.toList), ("r2.txt", d2Text.toList)]

/-- A batch in which two entries resolve to the same device name. -/
def c6Batch : Batch := [("core.txt", []), ("core.txt", "archive\n".toList)]

/-- A two-entry batch and its transposition, for the order-independence
witness. -/
def permBatchA : Batch := [("a.txt", d1Text.toList), ("b.txt", d2Text.toList)]

def permBatchB : Batch := [("b.txt", d2Text.toList), ("a.txt", d1Text.toList)]

/-! ### Helper lemmas -/

lemma len_ite_le {c : Prop} [Decidable c] {x : Finding} :
    (if c then [x] else []).length ≤ 1 := by split <;> simp

lemma len_append_le {a b : List Finding} {n m : Nat} (ha : a.length ≤ n) (hb : b.length ≤ m) :
    (a ++ b).length ≤ n + m := by
  rw [List.length_append]; omega

lemma mem_ite_singleton {α : Type} {a x : α} {c : Prop} [Decidable c]
    (h : a ∈ (if c then [x] else [])) : a = x := by
  by_cases hc : c <;> simp [hc] at h; exact h

lemma filter_ite_singleton {α : Type} (p : α → Bool) (c : Prop) [Decidable c] (x : α) :
    List.filter p (if c then [x] else []) = if c then List.filter p [x] else [] := by
  split <;> rfl

lemma countP_ite_singleton {α : Type} (p : α → Bool) (c : Prop) [Decidable c] (x : α) :
    List.countP p (if c then [x] else []) = if c then List.countP p [x] else 0 := by
  split <;> rfl

lemma length_ite_singleton {α : Type} (c : Prop) [Decidable c] (x : α) :
    (if c then [x] else []).length = if c then 1 else 0 := by
  split <;> rfl

/-- Every finding emitted by the evaluator carries the given device name in
its `file` field. -/
lemma audit_file (n : String) (c : List Char) :
    ∀ f ∈ audit_config n c, f.file = n := by
  intro f hf
  unfold audit_config at hf
  simp only [List.mem_append] at hf
  repeat' rcases hf with hf | hf
  all_goals rw [mem_ite_singleton hf]; rfl

/-- Every finding emitted by the evaluator carries one of the seven fixed
category names. -/
lemma audit_category (n : String) (c : List Char) :
    ∀ f ∈ audit_config n c, f.category ∈ categoriesOrder := by
  intro f hf
  unfold audit_config at hf
  simp only [List.mem_append] at hf
  repeat' rcases hf with hf | hf
  all_goals rw [mem_ite_singleton hf]; simp [categoriesOrder, fDhcp, fArp, fPortSec,
    fUnshut, fVlan, fTelnet, fSnmpComm, fAcl, fAaa, fLocalUser, fLogging, fNtp, fSnmpV3,
    fFtp, fHttp, fSsh, fFhrp, fStorm, fStp, fType7, fArchive, fSvcEnc]

/-! ### Claims -/

/-- **C2.** For every natural number `n` of findings of a device,
`get_risk_score n` is `"No Risk"` iff `n = 0`, `"Low"` iff `1 ≤ n ≤ 2`,
`"Medium"` iff `3 ≤ n ≤ 5`, and `"High"` iff `6 ≤ n`. -/
theorem risk_score_bands (n : Nat) :
    (get_risk_score n = "No Risk" ↔ n = 0) ∧
    (get_risk_score n = "Low" ↔ 1 ≤ n ∧ n ≤ 2) ∧
    (get_risk_score n = "Medium" ↔ 3 ≤ n ∧ n ≤ 5) ∧
    (get_risk_score n = "High" ↔ 6 ≤ n) := by
  unfold get_risk_score
  split_ifs with h1 h2 h3 <;> refine ⟨?_, ?_, ?_, ?_⟩ <;> simp_all <;> omega


/-- **C10 (amended).** For every device name and configuration text, every
Finding returned by `audit_config` carries the given device name as its
`file` field and a category drawn from the seven fixed names; each of the
22 rules contributes at most one Finding, and hence the result list has
length at most 22. -/
theorem audit_config_invariants (fname : String) (content : List Char) :
    (∀ f ∈ audit_config fname content, f.file = fname ∧ f.category ∈ categoriesOrder) ∧
    (∀ t ∈ allTitles,
      (audit_config fname content).countP (fun f => f.finding == t) ≤ 1) ∧
    (audit_config fname content).length ≤ 22 := by
  refine ⟨fun f hf => ⟨audit_file fname content f hf, audit_category fname content f hf⟩,
    ?_, ?_⟩
  · intro t ht
    fin_cases ht
    all_goals
      unfold audit_config
      simp only [List.countP_append, countP_ite_singleton, List.countP_cons, List.countP_nil]
      simp [fDhcp, fArp, fPortSec, fUnshut, fVlan, fTelnet, fSnmpComm, fAcl, fAaa, fLocalUser,
        fLogging, fNtp, fSnmpV3, fFtp, fHttp, fSsh, fFhrp, fStorm, fStp, fType7, fArchive,
        fSvcEnc]
    all_goals try split
    all_goals omega
  · have h : (audit_config fname content).length ≤ 1 + 1 + 1 + 1 + 1 + 1 + 1 + 1 + 1 + 1 + 1 + 1 + 1 + 1 + 1 + 1 + 1 + 1 + 1 + 1 + 1 + 1 := by
      unfold audit_config
      exact len_append_le
        (len_append_le
        (len_append_le
        (len_append_le
        (len_append_le
        (len_append_le
        (len_append_le
        (len_append_le
        (len_append_le
        (len_append_le
        (len_append_le
        (len_append_le
        (len_append_le
        (len_append_le
        (len_append_le
        (len_append_le
        (len_append_le
        (len_append_le
        (len_append_le
        (len_append_le
        (len_append_le
        (len_ite_le) len_ite_le) len_ite_le) len_ite_le) len_ite_le) len_ite_le) len_ite_le) len_ite_le) len_ite_le) len_ite_le) len_ite_le) len_ite_le) len_ite_le) len_ite_le) len_ite_le) len_ite_le) len_ite_le) len_ite_le) len_ite_le) len_ite_le) len_ite_le) len_ite_le
    omega

/-- **C10 counterexample.** A configuration on which all 22 rules fire: the
evaluator returns 22 findings, refuting the claimed bound of 21 rules /
21 findings. -/
theorem audit_config_22_findings_cex :
    (audit_config "sw" allFireText.toList).length = 22 ∧
    ¬ ((audit_config "sw" allFireText.toList).length ≤ 21) := by
  constructor
  · decide
  · decide


/-- **C3.** For every device name and configuration text, the
interface-shutdown heuristic emits at most one "Unused Interfaces Active"
Finding per device (the source appends once and breaks out of its block
loop); in particular the two-block text with one shut and one unshut block
yields exactly one such Finding, not two. -/
theorem unshut_heuristic_at_most_once :
    (∀ (fname : String) (content : List Char),
      (audit_config fname content).countP
        (fun f => f.finding == "Unused Interfaces Active (heuristic)") ≤ 1) ∧
    (audit_config "sw" twoBlockText.toList).countP
      (fun f => f.finding == "Unused Interfaces Active (heuristic)") = 1 := by
  constructor
  · intro fname content
    unfold audit_config
    simp only [List.countP_append, countP_ite_singleton, List.countP_cons, List.countP_nil]
    simp [fDhcp, fArp, fPortSec, fUnshut, fVlan, fTelnet, fSnmpComm, fAcl, fAaa, fLocalUser,
      fLogging, fNtp, fSnmpV3, fFtp, fHttp, fSsh, fFhrp, fStorm, fStp, fType7, fArchive,
      fSvcEnc]
    try split
    all_goals omega
  · decide

/-- **C4.** For every device name and configuration text — including the
empty string and malformed text such as an unterminated interface block —
the evaluator (a total function of its input) emits the finding of every
plain absence-type rule whose mitigating pattern fails to match: pattern
failure degrades to "no match". -/
theorem absence_findings_degrade (fname : String) (content : List Char) :
    (mDhcpSnoop content = false → fDhcp fname ∈ audit_config fname content) ∧
    (mArpInspect content = false → fArp fname ∈ audit_config fname content) ∧
    (mPortSec content = false → fPortSec fname ∈ audit_config fname content) ∧
    (mAcl content = false → fAcl fname ∈ audit_config fname content) ∧
    (mAaaNewModel content = false → fAaa fname ∈ audit_config fname content) ∧
    (mLogging content = false → fLogging fname ∈ audit_config fname content) ∧
    (mNtpClock content = false → fNtp fname ∈ audit_config fname content) ∧
    (mSnmpV3 content = false → fSnmpV3 fname ∈ audit_config fname content) ∧
    (mSsh content = false → fSsh fname ∈ audit_config fname content) ∧
    (mFhrp content = false → fFhrp fname ∈ audit_config fname content) ∧
    (mStorm content = false → fStorm fname ∈ audit_config fname content) ∧
    (mStp content = false → fStp fname ∈ audit_config fname content) ∧
    (mArchive content = false → fArchive fname ∈ audit_config fname content) ∧
    (mSvcPwdEnc content = false → fSvcEnc fname ∈ audit_config fname content) := by
  refine ⟨fun h => ?_, fun h => ?_, fun h => ?_, fun h => ?_, fun h => ?_, fun h => ?_, fun h => ?_, fun h => ?_, fun h => ?_, fun h => ?_, fun h => ?_, fun h => ?_, fun h => ?_, fun h => ?_⟩ <;> simp [audit_config, h]

/-- Witness for C4 at the malformed unterminated-interface-block text. -/
theorem absence_findings_degrade_witness :
    fDhcp "dev" ∈ audit_config "dev" malformedText.toList ∧
    fArp "dev" ∈ audit_config "dev" malformedText.toList ∧
    fPortSec "dev" ∈ audit_config "dev" malformedText.toList ∧
    fAcl "dev" ∈ audit_config "dev" malformedText.toList ∧
    fAaa "dev" ∈ audit_config "dev" malformedText.toList ∧
    fLogging "dev" ∈ audit_config "dev" malformedText.toList ∧
    fNtp "dev" ∈ audit_config "dev" malformedText.toList ∧
    fSnmpV3 "dev" ∈ audit_config "dev" malformedText.toList ∧
    fSsh "dev" ∈ audit_config "dev" malformedText.toList ∧
    fFhrp "dev" ∈ audit_config "dev" malformedText.toList ∧
    fStorm "dev" ∈ audit_config "dev" malformedText.toList ∧
    fStp "dev" ∈ audit_config "dev" malformedText.toList ∧
    fArchive "dev" ∈ audit_config "dev" malformedText.toList ∧
    fSvcEnc "dev" ∈ audit_config "dev" malformedText.toList :=
  ⟨(absence_findings_degrade "dev" malformedText.toList).1 (by decide),
    (absence_findings_degrade "dev" malformedText.toList).2.1 (by decide),
    (absence_findings_degrade "dev" malformedText.toList).2.2.1 (by decide),
    (absence_findings_degrade "dev" malformedText.toList).2.2.2.1 (by decide),
    (absence_findings_degrade "dev" malformedText.toList).2.2.2.2.1 (by decide),
    (absence_findings_degrade "dev" malformedText.toList).2.2.2.2.2.1 (by decide),
    (absence_findings_degrade "dev" malformedText.toList).2.2.2.2.2.2.1 (by decide),
    (absence_findings_degrade "dev" malformedText.toList).2.2.2.2.2.2.2.1 (by decide),
    (absence_findings_degrade "dev" malformedText.toList).2.2.2.2.2.2.2.2.1 (by decide),
    (absence_findings_degrade "dev" malformedText.toList).2.2.2.2.2.2.2.2.2.1 (by decide),
    (absence_findings_degrade "dev" malformedText.toList).2.2.2.2.2.2.2.2.2.2.1 (by decide),
    (absence_findings_degrade "dev" malformedText.toList).2.2.2.2.2.2.2.2.2.2.2.1 (by decide),
    (absence_findings_degrade "dev" malformedText.toList).2.2.2.2.2.2.2.2.2.2.2.2.1 (by decide),
    (absence_findings_degrade "dev" malformedText.toList).2.2.2.2.2.2.2.2.2.2.2.2.2 (by decide)⟩

/-- **C1 (amended).** For every configuration text containing none of the
mitigating directives (all 14 plain absence patterns absent and no
interface block containing a shutdown line) *and containing at least one
interface block*, the evaluator returns exactly the 15 absence-type
findings, one per absence rule, plus exactly the presence-type findings
actually matched. -/
theorem absence_rules_exact (fname : String) (content : List Char)
    (h1 : mDhcpSnoop content = false) (h2 : mArpInspect content = false)
    (h3 : mPortSec content = false) (h4 : mAcl content = false)
    (h5 : mAaaNewModel content = false) (h6 : mLogging content = false)
    (h7 : mNtpClock content = false) (h8 : mSnmpV3 content = false)
    (h9 : mSsh content = false) (h10 : mFhrp content = false)
    (h11 : mStorm content = false) (h12 : mStp content = false)
    (h13 : mArchive content = false) (h14 : mSvcPwdEnc content = false)
    (hshut : ∀ b ∈ ifaceBlocks content, blockHasShutdown b = false)
    (hblk : ifaceBlocks content ≠ []) :
    (audit_config fname content).filter (fun f => decide (f.finding ∈ absenceTitles)) =
      [fDhcp fname, fArp fname, fPortSec fname, fUnshut fname, fAcl fname, fAaa fname,
       fLogging fname, fNtp fname, fSnmpV3 fname, fSsh fname, fFhrp fname, fStorm fname,
       fStp fname, fArchive fname, fSvcEnc fname] ∧
    (audit_config fname content).filter (fun f => decide (f.finding ∈ presenceTitles)) =
      ((if mNativeVlan1 content then [fVlan fname] else []) ++
       (if mTelnet content then [fTelnet fname] else []) ++
       (if mSnmpCommunity content then [fSnmpComm fname] else []) ++
       (if mLocalUser content then [fLocalUser fname] else []) ++
       (if mFtp content then [fFtp fname] else []) ++
       (if mHttp content then [fHttp fname] else []) ++
       (if mType7 content then [fType7 fname] else [])) := by
  have hheur : mUnshutBlock content = true := by
    unfold mUnshutBlock
    rw [List.any_eq_true]
    rcases hE : ifaceBlocks content with _ | ⟨b, bs⟩
    · exact absurd hE hblk
    · exact ⟨b, by simp, by simp [hshut b (by rw [hE]; exact List.mem_cons_self b bs)]⟩
  constructor <;>
    simp [audit_config, h1, h2, h3, h4, h5, h6, h7, h8, h9, h10, h11, h12, h13, h14, hheur,
      List.filter_append, filter_ite_singleton, absenceTitles, presenceTitles,
      fDhcp, fArp, fPortSec, fUnshut, fVlan, fTelnet, fSnmpComm, fAcl, fAaa, fLocalUser,
      fLogging, fNtp, fSnmpV3, fFtp, fHttp, fSsh, fFhrp, fStorm, fStp, fType7, fArchive,
      fSvcEnc]

/-- Witness for C1 at the unterminated-interface-block text (one block, no
shutdown line, no mitigating directives). -/
theorem absence_rules_exact_witness :
    (audit_config "dev" malformedText.toList).filter
        (fun f => decide (f.finding ∈ absenceTitles)) =
      [fDhcp "dev", fArp "dev", fPortSec "dev", fUnshut "dev", fAcl "dev", fAaa "dev",
       fLogging "dev", fNtp "dev", fSnmpV3 "dev", fSsh "dev", fFhrp "dev", fStorm "dev",
       fStp "dev", fArchive "dev", fSvcEnc "dev"] ∧
    (audit_config "dev" malformedText.toList).filter
        (fun f => decide (f.finding ∈ presenceTitles)) =
      ((if mNativeVlan1 malformedText.toList then [fVlan "dev"] else []) ++
       (if mTelnet malformedText.toList then [fTelnet "dev"] else []) ++
       (if mSnmpCommunity malformedText.toList then [fSnmpComm "dev"] else []) ++
       (if mLocalUser malformedText.toList then [fLocalUser "dev"] else []) ++
       (if mFtp malformedText.toList then [fFtp "dev"] else []) ++
       (if mHttp malformedText.toList then [fHttp "dev"] else []) ++
       (if mType7 malformedText.toList then [fType7 "dev"] else [])) :=
  absence_rules_exact "dev" malformedText.toList (by decide) (by decide) (by decide)
    (by decide) (by decide) (by decide) (by decide) (by decide) (by decide) (by decide)
    (by decide) (by decide) (by decide) (by decide) (by decide) (by decide)

/-- **C1 counterexample.** The empty configuration contains none of the
mitigating directives, yet the evaluator returns only 14 absence-type
findings, not 15: the heuristic rule cannot fire without an interface
block. -/
theorem absence_rules_fifteen_cex :
    mDhcpSnoop [] = false ∧ mArpInspect [] = false ∧ mPortSec [] = false ∧
    (∀ b ∈ ifaceBlocks [], blockHasShutdown b = false) ∧
    mAcl [] = false ∧ mAaaNewModel [] = false ∧ mLogging [] = false ∧
    mNtpClock [] = false ∧ mSnmpV3 [] = false ∧ mSsh [] = false ∧
    mFhrp [] = false ∧ mStorm [] = false ∧ mStp [] = false ∧
    mArchive [] = false ∧ mSvcPwdEnc [] = false ∧
    ((audit_config "dev" []).filter
        (fun f => decide (f.finding ∈ absenceTitles))).length = 14 ∧
    ((audit_config "dev" []).filter
        (fun f => decide (f.finding ∈ absenceTitles))).length ≠ 15 := by
  decide


/-- Permuting a batch permutes the flat findings list. -/
lemma flatFindings_perm {b1 b2 : Batch} (h : b1.Perm b2) :
    (flatFindings b1).Perm (flatFindings b2) := by
  induction h with
  | nil => exact List.Perm.refl _
  | cons x h ih =>
    show (audit_config x.1 x.2 ++ _).Perm (audit_config x.1 x.2 ++ _)
    exact List.Perm.append_left _ ih
  | swap x y l =>
    show (audit_config y.1 y.2 ++ (audit_config x.1 x.2 ++ flatFindings l)).Perm
      (audit_config x.1 x.2 ++ (audit_config y.1 y.2 ++ flatFindings l))
    rw [← List.append_assoc, ← List.append_assoc]
    exact List.Perm.append_right _ List.perm_append_comm
  | trans h1 h2 ih1 ih2 => exact ih1.trans ih2

/-- The flat list's length is the sum of the per-entry evaluation lengths. -/
lemma flatFindings_length (b : Batch) :
    (flatFindings b).length = (b.map (fun p => (audit_config p.1 p.2).length)).sum := by
  induction b with
  | nil => rfl
  | cons p t ih =>
    show (audit_config p.1 p.2 ++ flatFindings t).length = _
    simp [ih]

/-- Filtering an evaluation result by device name keeps everything or
nothing, since every finding carries the evaluated name. -/
lemma filter_audit_file (n : String) (c : List Char) (d : String) :
    (audit_config n c).filter (fun f => f.file = d) =
      if n = d then audit_config n c else [] := by
  split
  · next h =>
    apply List.filter_eq_self.mpr
    intro a ha
    simp [audit_file n c a ha, h]
  · next h =>
    apply List.filter_eq_nil_iff.mpr
    intro a ha
    simp [audit_file n c a ha, h]

/-- Grouping by device name commutes with flattening the batch. -/
lemma devFindings_eq_filter (b : Batch) (d : String) :
    devFindings b d = flatFindings (b.filter (fun p => p.1 = d)) := by
  unfold devFindings
  induction b with
  | nil => rfl
  | cons p t ih =>
    show (audit_config p.1 p.2 ++ flatFindings t).filter _ = _
    rw [List.filter_append, ih, filter_audit_file]
    by_cases hpd : p.1 = d
    · simp [hpd, flatFindings]
    · simp [hpd]

/-- **C5.** Aggregation is order-independent: for every batch and every
permutation of it, the per-device finding counts, the per-device risk
scores and the per-category totals agree (only the flat sequence order may
differ). -/
theorem aggregation_order_independent (b1 b2 : Batch) (h : b1.Perm b2) :
    (∀ d, devCount b1 d = devCount b2 d) ∧
    (∀ d, devScore b1 d = devScore b2 d) ∧
    (∀ c, catCount b1 c = catCount b2 c) := by
  have hp := flatFindings_perm h
  have hc : ∀ d, devCount b1 d = devCount b2 d := by
    intro d
    unfold devCount devFindings
    rw [← List.countP_eq_length_filter, ← List.countP_eq_length_filter]
    exact hp.countP_eq _
  refine ⟨hc, fun d => ?_, fun c => ?_⟩
  · unfold devScore
    rw [hc d]
  · unfold catCount
    rw [← List.countP_eq_length_filter, ← List.countP_eq_length_filter]
    exact hp.countP_eq _

/-- Witness for C5: transposing a two-device batch. -/
theorem aggregation_order_independent_witness :
    (∀ d, devCount permBatchA d = devCount permBatchB d) ∧
    (∀ d, devScore permBatchA d = devScore permBatchB d) ∧
    (∀ c, catCount permBatchA c = catCount permBatchB c) :=
  aggregation_order_independent permBatchA permBatchB
    (List.Perm.swap ("b.txt", d2Text.toList) ("a.txt", d1Text.toList) [])

/-- **C6.** When two or more entries of a batch resolve to the same device
name, the device's finding set is the concatenation of the findings of all
those entries — additive aggregation, no overwriting — and its finding
count is the sum over those entries. -/
theorem duplicate_names_additive (b : Batch) (d : String)
    (hdup : 2 ≤ (b.filter (fun p => p.1 = d)).length) :
    devFindings b d = flatFindings (b.filter (fun p => p.1 = d)) ∧
    devCount b d = ((b.filter (fun p => p.1 = d)).map
        (fun p => (audit_config p.1 p.2).length)).sum := by
  refine ⟨devFindings_eq_filter b d, ?_⟩
  unfold devCount
  rw [devFindings_eq_filter b d, flatFindings_length]

/-- Witness for C6: two entries named `core.txt` in one batch. -/
theorem duplicate_names_additive_witness :
    devFindings c6Batch "core.txt" =
      flatFindings (c6Batch.filter (fun p => p.1 = "core.txt")) ∧
    devCount c6Batch "core.txt" = ((c6Batch.filter (fun p => p.1 = "core.txt")).map
        (fun p => (audit_config p.1 p.2).length)).sum :=
  duplicate_names_additive c6Batch "core.txt" (by decide)

/-- The CSV row of a finding determines the finding. -/
lemma rowOf_inj : Function.Injective rowOf := by
  intro a b h
  cases a
  cases b
  simp [rowOf] at h
  obtain ⟨h1, h2, h3, h4, h5⟩ := h
  simp_all

/-- **C7.** Every finding of a batch appears exactly once (occurrence for
occurrence) as a detailed-findings CSV row with identical field values,
under the header `Finding, File, RiskDesc, Recommendation, Category`, and
contributes exactly once to its device's finding count and to its
category's total. -/
theorem csv_roundtrip (b : Batch) :
    (csvRows b).head? = some csvHeader ∧
    (∀ f : Finding, ((csvRows b).drop 1).countP (fun r => r = rowOf f) =
      (flatFindings b).countP (fun g => g = f)) ∧
    (∀ d, devCount b d = ((csvRows b).drop 1).countP (fun r => r.getD 1 "" = d)) ∧
    (∀ c, catCount b c = ((csvRows b).drop 1).countP (fun r => r.getD 4 "" = c)) := by
  refine ⟨rfl, fun f => ?_, fun d => ?_, fun c => ?_⟩
  · show ((flatFindings b).map rowOf).countP _ = _
    rw [List.countP_map]
    apply List.countP_congr
    intro g _
    constructor
    · intro hg
      simp only [Function.comp] at hg
      simpa using rowOf_inj (of_decide_eq_true hg)
    · intro hg
      have : g = f := of_decide_eq_true hg
      simp [this, Function.comp]
  · show devCount b d = ((flatFindings b).map rowOf).countP _
    rw [List.countP_map]
    unfold devCount devFindings
    rw [← List.countP_eq_length_filter]
    apply List.countP_congr
    intro g _
    simp [rowOf, Function.comp]
  · show catCount b c = ((flatFindings b).map rowOf).countP _
    rw [List.countP_map]
    unfold catCount
    rw [← List.countP_eq_length_filter]
    apply List.countP_congr
    intro g _
    simp [rowOf, Function.comp]

instance : IsTotal (String × Nat) countGE :=
  ⟨fun a b => le_total b.2 a.2⟩

instance : IsTrans (String × Nat) countGE :=
  ⟨fun _ _ _ h1 h2 => le_trans h2 h1⟩

/-- **C8 (amended).** The PDF report's category-distribution chart lists
the categories present in the batch in descending order of their finding
counts (`value_counts` order), not in the fixed 7-category catalog order. -/
theorem pdf_category_order_sorted (b : Batch) :
    List.Sorted countGE (sortedCatCounts (flatFindings b)) ∧
    (sortedCatCounts (flatFindings b)).Perm (catCounts (flatFindings b)) :=
  ⟨List.sorted_insertionSort countGE _, List.perm_insertionSort countGE _⟩

/-- **C8 counterexample.** A batch whose seven category totals are pairwise
distinct: the chart's category sequence is the descending-count order,
which differs from the catalog order (and from the catalog order restricted
to the categories present). -/
theorem pdf_category_order_cex :
    pdfCategoryOrder c8Batch =
      ["Config Mgmt", "Crypto", "Resilience", "Logging", "AAA", "Access Control"] ∧
    pdfCategoryOrder c8Batch ≠ categoriesOrder ∧
    pdfCategoryOrder c8Batch ≠
      categoriesOrder.filter (fun c => decide (c ∈ pdfCategoryOrder c8Batch)) := by
  refine ⟨by decide, by decide, by decide⟩

/-- **C9 (amended).** Decoding an entry uses UTF-8 with `errors="ignore"`,
which never raises — the Latin-1 fallback of `process_file_bytes` is
unreachable — and no entry is ever skipped: every uploaded entry is
evaluated on its (possibly lossily) decoded text. -/
theorem decode_never_skips :
    (∀ (fname : String) (raw : List Nat),
      utf8TryDecode raw = Except.ok (utf8DecodeIgnore raw) ∧
      process_file_bytes fname raw = audit_config fname (utf8DecodeIgnore raw)) ∧
    (∀ entries : List (String × List Nat),
      processBatchBytes entries =
        flatFindings (entries.map (fun e => (e.1, utf8DecodeIgnore e.2)))) := by
  refine ⟨fun fname raw => ⟨rfl, rfl⟩, fun entries => ?_⟩
  induction entries with
  | nil => rfl
  | cons e t ih =>
    show process_file_bytes e.1 e.2 ++ _ = _
    rw [ih]
    rfl

/-- **C9 counterexample.** The undecodable single byte `0xFF`: UTF-8 with
`ignore` decodes it to the empty text (no exception, so no Latin-1
fallback, whose result would differ), and the entry is then evaluated like
any other — it yields the 14 findings of the empty text instead of being
reported and skipped. -/
theorem decode_fallback_dead_cex :
    utf8DecodeIgnore [255] = [] ∧
    latin1Decode [255] = [Char.ofNat 255] ∧
    utf8DecodeIgnore [255] ≠ latin1Decode [255] ∧
    process_file_bytes "dev" [255] = audit_config "dev" [] ∧
    (process_file_bytes "dev" [255]).length = 14 := by
  refine ⟨by decide, by decide, by decide, rfl, by decide⟩


/-- Witness for C10 at the all-rules-fire text. -/
theorem audit_config_invariants_witness :
    ((fUnshut "sw").file = "sw" ∧ (fUnshut "sw").category ∈ categoriesOrder) ∧
    (audit_config "sw" allFireText.toList).countP
      (fun f => f.finding == "FTP Enabled") ≤ 1 :=
  ⟨(audit_config_invariants "sw" allFireText.toList).1 (fUnshut "sw") (by decide),
   (audit_config_invariants "sw" allFireText.toList).2.1 "FTP Enabled" (by decide)⟩

end NetAudit
